import Mathlib

/-!
Shallow embedding of `neo_dolfin/api/optimized_api/API_db_op.py`.

The module is a set of SQLite CRUD operations over two tables:

  users(u_id INTEGER PRIMARY KEY AUTOINCREMENT, email, mobile, first_name,
        middle_name, last_name, password, basiq_id DEFAULT NULL)
  transactions(id VARCHAR PRIMARY KEY, type, status, description, amount,
        account, balance, direction, class, institution, postDate,
        subClass_title, subClass_code,
        trans_u_id NOT NULL REFERENCES users(u_id)
          ON DELETE CASCADE ON UPDATE CASCADE)

We model the database as explicit state (`DolfinDB`), SQL values that the code
only copies (amount, balance, postDate, ...) as `String`, NULLable columns as
`Option String`, and the remote Basiq provider as an oracle parameter; each
operation that talks to the provider also returns the trace of remote calls it
performed, so "performs no remote call" is statable.
-/

namespace APIDbOp

/-- A row of the `users` table.  `basiq_id` is the NULLable provider-account
column (`DEFAULT NULL` in the schema). -/
structure UserRow where
  u_id : Nat
  email : String
  mobile : String
  first_name : String
  middle_name : String
  last_name : String
  password : String
  basiq_id : Option String
  deriving Repr, DecidableEq

/-- A row of the `transactions` table.  `class` is a Lean keyword, so the
column is embedded as `class_col`; `subClass_title` / `subClass_code` are the
NULLable columns. -/
structure TransRow where
  id : String
  type : String
  status : String
  description : String
  amount : String
  account : String
  balance : String
  direction : String
  class_col : String
  institution : String
  postDate : String
  subClass_title : Option String
  subClass_code : Option String
  trans_u_id : Nat
  deriving Repr, DecidableEq

/-- The persistent state of `dolfin_db.db`: the two tables plus the
AUTOINCREMENT counter backing `u_id`. -/
structure DolfinDB where
  users : List UserRow
  transactions : List TransRow
  next_u_id : Nat
  deriving Repr, DecidableEq

/-- The freshly initialised database produced by `init_dolfin_db` on a new
file: both tables empty, AUTOINCREMENT starting at 1. -/
def emptyDB : DolfinDB := { users := [], transactions := [], next_u_id := 1 }

/-- `SELECT ... FROM users WHERE u_id = ?` followed by `fetchone()`:
the first row matching the key, if any. -/
def findUser (db : DolfinDB) (user_id : Nat) : Option UserRow :=
  db.users.find? (fun u => u.u_id == user_id)

/-- `register_user`: `INSERT INTO users (email, mobile, first_name,
middle_name, last_name, password) VALUES (?,?,?,?,?,?)`.  The insert does not
mention `basiq_id`, so the row takes the schema default NULL, and `u_id` is
assigned by AUTOINCREMENT. -/
def register_user (email mobile first_name middle_name last_name password : String)
    (db : DolfinDB) : DolfinDB :=
  { db with
    users := db.users ++
      [{ u_id := db.next_u_id, email := email, mobile := mobile,
         first_name := first_name, middle_name := middle_name,
         last_name := last_name, password := password, basiq_id := none }],
    next_u_id := db.next_u_id + 1 }

/-- What `get_basiq_id` can hand back: the fetched column value (which is the
raw NULL, i.e. Python `None`, when the column is NULL), the string
`"No user found with the given ID."`, or the `"An error occurred: ..."` string
from the `except sqlite3.Error` branch. -/
inductive BasiqIdResult where
  | value : Option String → BasiqIdResult
  | noUser : BasiqIdResult
  | storageError : String → BasiqIdResult
  deriving Repr, DecidableEq

/-- `get_basiq_id`: `SELECT basiq_id FROM users WHERE u_id = ?`; if
`fetchone()` yields a row, return `result[0]` (the raw column value, `None`
included); otherwise return the no-user message.  A pure in-memory store never
raises `sqlite3.Error`, so the `storageError` branch is unreachable here. -/
def get_basiq_id (user_id : Nat) (db : DolfinDB) : BasiqIdResult :=
  match findUser db user_id with
  | some u => .value u.basiq_id
  | none => .noUser

/-- The profile dict built by `get_user_info`: email, mobile, firstName,
middleName, lastName. -/
structure UserProfile where
  email : String
  mobile : String
  firstName : String
  middleName : String
  lastName : String
  deriving Repr, DecidableEq

/-- Result of `get_user_info`: the profile dict, the
`"No user found with the given ID."` message, or the `sqlite3.Error`
message. -/
inductive UserInfoResult where
  | profile : UserProfile → UserInfoResult
  | noUser : UserInfoResult
  | storageError : String → UserInfoResult
  deriving Repr, DecidableEq

/-- `get_user_info`: `SELECT email, mobile, first_name, middle_name, last_name
FROM users WHERE u_id = ?`; builds the dict from the fetched row, or returns
the no-user message when `fetchone()` is empty.  The `storageError` branch is
the unreachable `except sqlite3.Error` arm of the pure model. -/
def get_user_info (user_id : Nat) (db : DolfinDB) : UserInfoResult :=
  match findUser db user_id with
  | some u =>
      .profile { email := u.email, mobile := u.mobile, firstName := u.first_name,
                 middleName := u.middle_name, lastName := u.last_name }
  | none => .noUser

/-- Status strings returned by `register_basiq_id`. -/
inductive RegisterBasiqResult where
  | updated : RegisterBasiqResult
  | noUser : RegisterBasiqResult
  | storageError : String → RegisterBasiqResult
  deriving Repr, DecidableEq

/-- `register_basiq_id`: obtains `new_basiq_id` from the provider
(`core_instance.create_user_by_dict(get_user_info(user_id), access_token)`,
modelled by the oracle argument `new_basiq_id`), then
`UPDATE users SET basiq_id = ? WHERE u_id = ?`; `rowcount == 0` yields the
no-user message with no commit, otherwise the single matching row's
`basiq_id` is overwritten and committed. -/
def register_basiq_id (new_basiq_id : String) (user_id : Nat) (db : DolfinDB) :
    RegisterBasiqResult × DolfinDB :=
  if db.users.any (fun u => u.u_id == user_id) then
    (.updated,
     { db with
       users := db.users.map (fun u =>
         if u.u_id == user_id then { u with basiq_id := some new_basiq_id } else u) })
  else
    (.noUser, db)

/-- Trace entries for calls made to the remote Basiq provider.
`createAuthLink` carries the account ref `link_bank_account` passes
(`result[0]`, which is the raw NULL when `basiq_id` is NULL);
`listTransactions` carries the raw `get_basiq_id` result that
`request_transactions_df` passes through, plus `limit_para` and
`filter_para`. -/
inductive RemoteCall where
  | createAuthLink : Option String → RemoteCall
  | listTransactions : BasiqIdResult → Nat → String → RemoteCall
  deriving Repr, DecidableEq

/-- Status of `link_bank_account`: the Python function falls off the end
(returns `None`) after opening the browser, returns the no-user message when
`fetchone()` is empty, or the `sqlite3.Error` message. -/
inductive LinkResult where
  | opened : LinkResult
  | noUser : LinkResult
  | storageError : String → LinkResult
  deriving Repr, DecidableEq

/-- `link_bank_account`: `SELECT basiq_id FROM users WHERE u_id = ?`; if a row
is fetched (whatever the column value, NULL included — the tuple `(None,)` is
truthy), calls `core_instance.create_auth_link(result[0], access_token)` and
opens the link; otherwise returns the no-user message with no remote call.
The function executes no INSERT/UPDATE/DELETE, so the database state is
returned unchanged; the remote calls performed are returned as a trace. -/
def link_bank_account (user_id : Nat) (db : DolfinDB) :
    LinkResult × DolfinDB × List RemoteCall :=
  match findUser db user_id with
  | some u => (.opened, db, [.createAuthLink u.basiq_id])
  | none => (.noUser, db, [])

/-- The optional nested `subClass` object of a provider transaction record. -/
structure SubClass where
  title : String
  code : String
  deriving Repr, DecidableEq

/-- A provider-schema transaction record as consumed by
`request_transactions_df` (one element of `tran_data['data']`). -/
structure ProviderRecord where
  type : String
  id : String
  status : String
  description : String
  amount : String
  account : String
  balance : String
  direction : String
  class_col : String
  institution : String
  postDate : String
  subClass : Option SubClass
  deriving Repr, DecidableEq

/-- One normalized row as built by the loop body of
`request_transactions_df` (the flat dict appended to `transactions`). -/
structure NormTrans where
  type : String
  id : String
  status : String
  description : String
  amount : String
  account : String
  balance : String
  direction : String
  class_col : String
  institution : String
  postDate : String
  subClass_title : Option String
  subClass_code : Option String
  deriving Repr, DecidableEq

/-- The loop body of `request_transactions_df`: every provider field is copied
through unchanged, and `subClass_title` / `subClass_code` are
`transaction['subClass']['title' / 'code'] if transaction.get('subClass')
else None`. -/
def normalize_record (t : ProviderRecord) : NormTrans :=
  { type := t.type, id := t.id, status := t.status,
    description := t.description, amount := t.amount, account := t.account,
    balance := t.balance, direction := t.direction, class_col := t.class_col,
    institution := t.institution, postDate := t.postDate,
    subClass_title := t.subClass.map (fun sc => sc.title),
    subClass_code := t.subClass.map (fun sc => sc.code) }

/-- `request_transactions_df`: unconditionally calls
`data_instance.get_transaction_list(get_basiq_id(user_id), limit_para,
filter_para, access_token)` — there is no check that the user is linked; the
raw `get_basiq_id` result (the raw NULL for an unlinked user) is passed
straight through — then maps the loop body over `tran_data['data']`.  The
provider is the oracle `remote`; the single remote call made is returned as a
trace. -/
def request_transactions_df
    (remote : BasiqIdResult → Nat → String → List ProviderRecord)
    (user_id : Nat) (limit_para : Nat) (filter_para : String) (db : DolfinDB) :
    List NormTrans × List RemoteCall :=
  let bid := get_basiq_id user_id db
  let transaction_list := remote bid limit_para filter_para
  (transaction_list.map normalize_record,
   [.listTransactions bid limit_para filter_para])

/-- Status strings returned by `cache_transactions`: the success message, or
the `"An error occurred: ..."` string from the `except sqlite3.Error` branch
(UNIQUE-constraint and FOREIGN-KEY-constraint violations are
`sqlite3.IntegrityError`, a subclass of `sqlite3.Error`). -/
inductive CacheResult where
  | inserted : CacheResult
  | storageError : CacheResult
  deriving Repr, DecidableEq

/-- The tuple bound into the INSERT statement of `cache_transactions`: every
field of the normalized row plus `user_id` as `trans_u_id`. -/
def toTransRow (user_id : Nat) (row : NormTrans) : TransRow :=
  { id := row.id, type := row.type, status := row.status,
    description := row.description, amount := row.amount,
    account := row.account, balance := row.balance,
    direction := row.direction, class_col := row.class_col,
    institution := row.institution, postDate := row.postDate,
    subClass_title := row.subClass_title, subClass_code := row.subClass_code,
    trans_u_id := user_id }

/-- One `cursor.execute(insert_statement, ...)` of `cache_transactions`:
a plain INSERT, which fails when `transactions.id` (the PRIMARY KEY) is
already present, and — `PRAGMA foreign_keys = ON` is set on this
connection — when `trans_u_id` references no `users.u_id`.  `none` models
the raised `sqlite3.IntegrityError`. -/
def insert_transaction_row (user_id : Nat) (row : NormTrans) (db : DolfinDB) :
    Option DolfinDB :=
  if db.transactions.any (fun t => t.id == row.id) then
    none
  else if db.users.any (fun u => u.u_id == user_id) then
    some { db with transactions := db.transactions ++ [toTransRow user_id row] }
  else
    none

/-- The `for index, row in tran_data.iterrows()` loop: executes the INSERT for
each row in order inside the one implicit transaction; the first failing row
raises, which aborts the loop. -/
def insert_all_rows (user_id : Nat) (rows : List NormTrans) (db : DolfinDB) :
    Option DolfinDB :=
  match rows with
  | [] => some db
  | row :: rest =>
      match insert_transaction_row user_id row db with
      | some db1 => insert_all_rows user_id rest db1
      | none => none

/-- `cache_transactions`: all the INSERTs run inside the single implicit
transaction of the `with sqlite3.connect(...)` block, which commits on normal
exit and rolls back when a `sqlite3.Error` escapes the block; the `except`
then returns the error string.  So on any failing row the table is left
exactly as it was, and on success all rows are appended. -/
def cache_transactions (user_id : Nat) (tran_data : List NormTrans)
    (db : DolfinDB) : CacheResult × DolfinDB :=
  match insert_all_rows user_id tran_data db with
  | some db1 => (.inserted, db1)
  | none => (.storageError, db)

/-- `fetch_transactions_by_user`:
`SELECT * FROM transactions WHERE trans_u_id = ?` — the cached rows owned by
the user, no remote call, no mutation. -/
def fetch_transactions_by_user (user_id : Nat) (db : DolfinDB) : List TransRow :=
  db.transactions.filter (fun t => t.trans_u_id == user_id)

/-- `clear_transactions`: `DELETE FROM transactions;` with no WHERE clause —
every row of the transactions table goes, the users table is untouched. -/
def clear_transactions (db : DolfinDB) : DolfinDB :=
  { db with transactions := [] }

/-- Modelled from the spec: no delete-user operation exists in the source
file — only the schema's `FOREIGN KEY (trans_u_id) REFERENCES users (u_id)
ON DELETE CASCADE` clause in `init_dolfin_db`.  Per the spec, deleting a user
row cascade-deletes every transaction row whose `trans_u_id` is that user. -/
def delete_user (user_id : Nat) (db : DolfinDB) : DolfinDB :=
  { db with
    users := db.users.filter (fun u => u.u_id != user_id),
    transactions := db.transactions.filter (fun t => t.trans_u_id != user_id) }

/-- Referential integrity of the transactions table: every row's `trans_u_id`
references an existing `users.u_id` (the schema's FOREIGN KEY constraint). -/
def fk_holds (db : DolfinDB) : Prop :=
  ∀ t ∈ db.transactions, ∃ u ∈ db.users, u.u_id = t.trans_u_id

instance (db : DolfinDB) : Decidable (fk_holds db) := by
  unfold fk_holds
  infer_instance

/-! ### Concrete fixtures -/

/-- The spec scenario store after
`register_user("a@x.com","000","A","","B","h")` on a fresh database:
one user, `u_id = 1`, `basiq_id` NULL. -/
def dbU1 : DolfinDB := register_user "a@x.com" "000" "A" "" "B" "h" emptyDB

/-- A normalized provider transaction record with id `"tx1"`. -/
def recT : NormTrans :=
  { type := "transaction", id := "tx1", status := "posted",
    description := "coffee", amount := "-4.50", account := "acc1",
    balance := "95.50", direction := "debit", class_col := "payment",
    institution := "bank1", postDate := "2024-01-02", subClass_title := none,
    subClass_code := none }

/-- A provider record whose `subClass` is absent. -/
def provNoSub : ProviderRecord :=
  { type := "transaction", id := "tx2", status := "posted",
    description := "salary", amount := "100.00", account := "acc1",
    balance := "195.50", direction := "credit", class_col := "transfer",
    institution := "bank1", postDate := "2024-01-03", subClass := none }

/-- A provider record carrying `subClass = {title: "Groceries", code: "G1"}`
(the spec example). -/
def provGroceries : ProviderRecord :=
  { provNoSub with
    id := "tx3",
    subClass := some { title := "Groceries", code := "G1" } }

/-- A remote-provider oracle that returns no records, used to exercise the
call trace on concrete inputs. -/
def remoteEmpty : BasiqIdResult → Nat → String → List ProviderRecord :=
  fun _ _ _ => []

/-- The one user row of `dbU1`. -/
def userRow1 : UserRow :=
  { u_id := 1, email := "a@x.com", mobile := "000", first_name := "A",
    middle_name := "", last_name := "B", password := "h", basiq_id := none }

/-- The spec-scenario store with one cached transaction for user 1. -/
def dbT : DolfinDB := (cache_transactions 1 [recT] dbU1).2

/-! ### Supporting lemmas -/

/-- A successful batch insert never touches the users table. -/
theorem insert_all_rows_users (user_id : Nat) (rows : List NormTrans) :
    ∀ db db1 : DolfinDB, insert_all_rows user_id rows db = some db1 →
      db1.users = db.users := by
  induction rows with
  | nil =>
      intro db db1 h
      simp only [insert_all_rows, Option.some.injEq] at h
      rw [← h]
  | cons row rest ih =>
      intro db db1 h
      simp only [insert_all_rows] at h
      cases hrow : insert_transaction_row user_id row db with
      | none => rw [hrow] at h; exact absurd h (by simp)
      | some dbm =>
          rw [hrow] at h
          have hu : dbm.users = db.users := by
            unfold insert_transaction_row at hrow
            split at hrow
            · exact absurd hrow (by simp)
            · split at hrow
              · cases hrow; rfl
              · exact absurd hrow (by simp)
          rw [ih dbm db1 h, hu]

/-- A single INSERT preserves referential integrity: the new row's
`trans_u_id` is checked against the users table, the other rows keep their
owners because the users table is untouched. -/
theorem insert_transaction_row_fk (user_id : Nat) (row : NormTrans)
    (db db1 : DolfinDB) (hfk : fk_holds db)
    (h : insert_transaction_row user_id row db = some db1) : fk_holds db1 := by
  unfold insert_transaction_row at h
  split at h
  · exact absurd h (by simp)
  · split at h
    · rename_i hany
      cases h
      intro t ht
      simp only [List.mem_append, List.mem_singleton] at ht
      cases ht with
      | inl hmem => exact hfk t hmem
      | inr heq =>
          obtain ⟨u, hu, huid⟩ := List.any_eq_true.mp hany
          refine ⟨u, hu, ?_⟩
          rw [heq]
          show u.u_id = user_id
          exact beq_iff_eq.mp huid
    · exact absurd h (by simp)

/-- A successful batch insert preserves referential integrity. -/
theorem insert_all_rows_fk (user_id : Nat) (rows : List NormTrans) :
    ∀ db db1 : DolfinDB, fk_holds db →
      insert_all_rows user_id rows db = some db1 → fk_holds db1 := by
  induction rows with
  | nil =>
      intro db db1 hfk h
      simp only [insert_all_rows, Option.some.injEq] at h
      rw [← h]; exact hfk
  | cons row rest ih =>
      intro db db1 hfk h
      simp only [insert_all_rows] at h
      cases hrow : insert_transaction_row user_id row db with
      | none => rw [hrow] at h; exact absurd h (by simp)
      | some dbm =>
          rw [hrow] at h
          exact ih dbm db1 (insert_transaction_row_fk user_id row db dbm hfk hrow) h

/-- A missing owner fails every INSERT of the batch, first row included. -/
theorem insert_transaction_row_no_user (user_id : Nat) (row : NormTrans)
    (db : DolfinDB) (h : db.users.any (fun u => u.u_id == user_id) = false) :
    insert_transaction_row user_id row db = none := by
  unfold insert_transaction_row
  split
  · rfl
  · rw [h]
    rfl

/-! ### Claims -/

/-- C1: the claim asserts ingestion is idempotent — replaying
`cache_transactions` on the same record must succeed and leave one row.  The
code performs a plain INSERT, so at the failing input (user 1, record
`recT`, ingested twice) the first call succeeds and stores exactly one row
with `recT`'s fields, but the replay hits the PRIMARY KEY constraint and
returns the error string (the transaction is rolled back, so the end state is
unchanged — yet the replay fails, which the claim forbids). -/
theorem cache_transactions_replay_fails :
    (cache_transactions 1 [recT] dbU1).1 = CacheResult.inserted ∧
    (cache_transactions 1 [recT] dbU1).2.transactions = [toTransRow 1 recT] ∧
    (cache_transactions 1 [recT] dbT).1 = CacheResult.storageError ∧
    (cache_transactions 1 [recT] dbT).2 = dbT := by
  refine ⟨rfl, rfl, ?_, ?_⟩ <;> decide

/-- C2 counterexample: for user 1 of `dbU1`, whose `basiq_id` is NULL,
`request_transactions_df` does not fail — it performs a remote
`get_transaction_list` call, passing the raw NULL through as the account
ref, contrary to the claimed NotLinked failure with no remote call. -/
theorem request_transactions_df_unlinked_calls_remote :
    get_basiq_id 1 dbU1 = BasiqIdResult.value none ∧
    (request_transactions_df remoteEmpty 1 500 "" dbU1).2 =
      [RemoteCall.listTransactions (BasiqIdResult.value none) 500 ""] := by
  exact ⟨rfl, rfl⟩

/-- C2 amended: for every user whose `basiq_id` is NULL,
`request_transactions_df` does not fail and performs exactly one remote
list call, passing the raw NULL through as the account ref; the result is
the normalized image of whatever the provider returns. -/
theorem request_transactions_df_unlinked_behavior
    (remote : BasiqIdResult → Nat → String → List ProviderRecord)
    (user_id limit_para : Nat) (filter_para : String) (db : DolfinDB)
    (u : UserRow) (hu : findUser db user_id = some u)
    (hb : u.basiq_id = none) :
    request_transactions_df remote user_id limit_para filter_para db =
      ((remote (BasiqIdResult.value none) limit_para filter_para).map
         normalize_record,
       [RemoteCall.listTransactions (BasiqIdResult.value none) limit_para
          filter_para]) := by
  have hbid : get_basiq_id user_id db = BasiqIdResult.value none := by
    unfold get_basiq_id
    rw [hu]
    exact congrArg BasiqIdResult.value hb
  unfold request_transactions_df
  rw [hbid]

/-- Witness for C2's amended theorem at `dbU1`, user 1. -/
theorem request_transactions_df_unlinked_behavior_witness :
    request_transactions_df remoteEmpty 1 500 "" dbU1 =
      ([], [RemoteCall.listTransactions (BasiqIdResult.value none) 500 ""]) :=
  request_transactions_df_unlinked_behavior remoteEmpty 1 500 "" dbU1
    userRow1 (by decide) rfl

/-- C3: deleting a user cascade-deletes its transactions — afterwards the
cached-transaction read for that user is empty — and referential integrity
(every transaction row references an existing user) is preserved both by the
cascade delete and by `cache_transactions`. -/
theorem delete_user_cascade (db : DolfinDB) (user_id : Nat)
    (hfk : fk_holds db) :
    fetch_transactions_by_user user_id (delete_user user_id db) = [] ∧
    fk_holds (delete_user user_id db) ∧
    ∀ uid rows, fk_holds (cache_transactions uid rows db).2 := by
  refine ⟨?_, ?_, ?_⟩
  · unfold fetch_transactions_by_user delete_user
    rw [List.filter_filter]
    apply List.filter_eq_nil_iff.mpr
    intro t _
    by_cases h : t.trans_u_id = user_id
    · simp [h]
    · simp [h]
  · intro t ht
    unfold delete_user at ht
    simp only [List.mem_filter] at ht
    obtain ⟨htm, hne⟩ := ht
    obtain ⟨u, hu, huid⟩ := hfk t htm
    refine ⟨u, ?_, huid⟩
    unfold delete_user
    simp only [List.mem_filter]
    refine ⟨hu, ?_⟩
    rw [huid]
    exact hne
  · intro uid rows
    unfold cache_transactions
    cases hall : insert_all_rows uid rows db with
    | some db1 => exact insert_all_rows_fk uid rows db db1 hfk hall
    | none => exact hfk

/-- Witness for C3 at `dbT` (user 1 owning one cached transaction). -/
theorem delete_user_cascade_witness :
    fetch_transactions_by_user 1 (delete_user 1 dbT) = [] ∧
    fk_holds (delete_user 1 dbT) :=
  ⟨(delete_user_cascade dbT 1 (by decide)).1,
   (delete_user_cascade dbT 1 (by decide)).2.1⟩

/-- C4: normalization is a structural flatten — absent `subClass` gives NULL
`subClass_title`/`subClass_code`, present `subClass = {title, code}` is
copied verbatim, every other provider field passes through unchanged, and
`request_transactions_df` returns exactly the normalized image of the
provider response. -/
theorem normalization_correct (t : ProviderRecord) :
    (t.subClass = none →
      (normalize_record t).subClass_title = none ∧
      (normalize_record t).subClass_code = none) ∧
    (∀ sc : SubClass, t.subClass = some sc →
      (normalize_record t).subClass_title = some sc.title ∧
      (normalize_record t).subClass_code = some sc.code) ∧
    (normalize_record t).type = t.type ∧
    (normalize_record t).id = t.id ∧
    (normalize_record t).status = t.status ∧
    (normalize_record t).description = t.description ∧
    (normalize_record t).amount = t.amount ∧
    (normalize_record t).account = t.account ∧
    (normalize_record t).balance = t.balance ∧
    (normalize_record t).direction = t.direction ∧
    (normalize_record t).class_col = t.class_col ∧
    (normalize_record t).institution = t.institution ∧
    (normalize_record t).postDate = t.postDate ∧
    ∀ remote user_id limit_para filter_para db,
      (request_transactions_df remote user_id limit_para filter_para db).1 =
        (remote (get_basiq_id user_id db) limit_para filter_para).map
          normalize_record := by
  refine ⟨?_, ?_, rfl, rfl, rfl, rfl, rfl, rfl, rfl, rfl, rfl, rfl, rfl, ?_⟩
  · intro h
    simp [normalize_record, h]
  · intro sc h
    simp [normalize_record, h]
  · intro remote user_id limit_para filter_para db
    rfl

/-- Witness for C4 at the spec's example records: one with `subClass`
absent, one with `subClass = {title: "Groceries", code: "G1"}`. -/
theorem normalization_correct_witness :
    ((normalize_record provNoSub).subClass_title = none ∧
     (normalize_record provNoSub).subClass_code = none) ∧
    ((normalize_record provGroceries).subClass_title = some "Groceries" ∧
     (normalize_record provGroceries).subClass_code = some "G1") :=
  ⟨(normalization_correct provNoSub).1 rfl,
   (normalization_correct provGroceries).2.1
     { title := "Groceries", code := "G1" } rfl⟩

/-- C5: batch ingestion is atomic — whenever `cache_transactions` reports the
error string, the transactions table is exactly as before (the implicit
transaction of the connection block is rolled back); and a batch whose owner
user is absent (e.g. deleted mid-flow) fails as a whole with the storage
error, committing nothing. -/
theorem cache_transactions_batch_atomic (user_id : Nat)
    (rows : List NormTrans) (db : DolfinDB) :
    ((cache_transactions user_id rows db).1 = CacheResult.storageError →
      (cache_transactions user_id rows db).2 = db) ∧
    (rows ≠ [] → db.users.any (fun u => u.u_id == user_id) = false →
      (cache_transactions user_id rows db).1 = CacheResult.storageError ∧
      (cache_transactions user_id rows db).2 = db) := by
  constructor
  · intro herr
    unfold cache_transactions at herr ⊢
    cases hall : insert_all_rows user_id rows db with
    | some db1 =>
        rw [hall] at herr
        simp at herr
    | none => rfl
  · intro hne hno
    unfold cache_transactions
    cases rows with
    | nil => exact absurd rfl hne
    | cons row rest =>
        simp only [insert_all_rows]
        rw [insert_transaction_row_no_user user_id row db hno]
        exact ⟨rfl, rfl⟩

/-- Witness for C5: caching a nonempty batch for the absent user 2 in `dbU1`
fails and leaves the store untouched. -/
theorem cache_transactions_batch_atomic_witness :
    (cache_transactions 2 [recT] dbU1).1 = CacheResult.storageError ∧
    (cache_transactions 2 [recT] dbU1).2 = dbU1 :=
  (cache_transactions_batch_atomic 2 [recT] dbU1).2 (by decide) (by decide)

/-- C6 counterexample: for the existing unlinked user 1 of `dbU1`,
`get_basiq_id` returns the raw NULL column value, not the distinct
no-user-found signal the claim requires. -/
theorem get_basiq_id_null_is_raw :
    get_basiq_id 1 dbU1 ≠ BasiqIdResult.noUser ∧
    get_basiq_id 1 dbU1 = BasiqIdResult.value none := by
  exact ⟨by decide, rfl⟩

/-- C6 amended: for every existing user whose `basiq_id` is NULL,
`get_basiq_id` returns the raw NULL value (Python `None`) — not a storage
failure; the no-user signal is reserved for absent rows. -/
theorem get_basiq_id_null_field (db : DolfinDB) (user_id : Nat) (u : UserRow)
    (hu : findUser db user_id = some u) (hb : u.basiq_id = none) :
    get_basiq_id user_id db = BasiqIdResult.value none ∧
    ∀ s, get_basiq_id user_id db ≠ BasiqIdResult.storageError s := by
  have hbid : get_basiq_id user_id db = BasiqIdResult.value none := by
    unfold get_basiq_id
    rw [hu]
    exact congrArg BasiqIdResult.value hb
  exact ⟨hbid, fun s h => by rw [hbid] at h; cases h⟩

/-- Witness for C6's amended theorem at `dbU1`, user 1. -/
theorem get_basiq_id_null_field_witness :
    get_basiq_id 1 dbU1 = BasiqIdResult.value none :=
  (get_basiq_id_null_field dbU1 1 userRow1 (by decide) rfl).1

/-- C7: `register_user` only ever adds a row whose `basiq_id` is NULL, and no
operation other than `register_basiq_id` writes that field —
`cache_transactions`, `clear_transactions` and `link_bank_account` leave the
users table untouched, and `register_basiq_id` leaves every row other than
the targeted user exactly as it was. -/
theorem basiq_id_lifecycle (email mobile first_name middle_name last_name
    password : String) (db : DolfinDB) (user_id : Nat)
    (rows : List NormTrans) (new_basiq_id : String) :
    (∀ u ∈ (register_user email mobile first_name middle_name last_name
        password db).users,
      u ∈ db.users ∨ (u.u_id = db.next_u_id ∧ u.basiq_id = none)) ∧
    (cache_transactions user_id rows db).2.users = db.users ∧
    (clear_transactions db).users = db.users ∧
    (link_bank_account user_id db).2.1 = db ∧
    (∀ u ∈ (register_basiq_id new_basiq_id user_id db).2.users,
      u.u_id ≠ user_id → u ∈ db.users) := by
  refine ⟨?_, ?_, rfl, ?_, ?_⟩
  · intro u hu
    unfold register_user at hu
    simp only [List.mem_append, List.mem_singleton] at hu
    cases hu with
    | inl h => exact Or.inl h
    | inr h => exact Or.inr (by rw [h]; exact ⟨rfl, rfl⟩)
  · unfold cache_transactions
    cases hall : insert_all_rows user_id rows db with
    | some db1 => exact insert_all_rows_users user_id rows db db1 hall
    | none => rfl
  · unfold link_bank_account
    cases h : findUser db user_id <;> rfl
  · intro u hu hne
    unfold register_basiq_id at hu
    split at hu
    · simp only [List.mem_map] at hu
      obtain ⟨u0, hu0, heq⟩ := hu
      by_cases hid : (u0.u_id == user_id) = true
      · rw [if_pos hid] at heq
        exact absurd (by rw [← heq]; exact beq_iff_eq.mp hid) hne
      · rw [if_neg hid] at heq
        rw [← heq]
        exact hu0
    · exact hu

/-- Witness for C7: the row `register_user` adds to the empty store is the
fresh one with a NULL `basiq_id`, and a `register_basiq_id` call targeting
the absent user 2 leaves user 1's row — `basiq_id` included — exactly as it
was. -/
theorem basiq_id_lifecycle_witness :
    (userRow1 ∈ emptyDB.users ∨
      (userRow1.u_id = emptyDB.next_u_id ∧ userRow1.basiq_id = none)) ∧
    userRow1 ∈ dbU1.users :=
  ⟨(basiq_id_lifecycle "a@x.com" "000" "A" "" "B" "h" emptyDB 1 [recT]
      "bq1").1 userRow1 (by decide),
   (basiq_id_lifecycle "a@x.com" "000" "A" "" "B" "h" dbU1 2 [recT]
      "bq1").2.2.2.2 userRow1 (by decide) (by decide)⟩

/-- C8: `get_user_info` returns the distinct no-user signal for every absent
user id, the exact five-field profile (email, mobile, firstName, middleName,
lastName) for every present one, and never the storage-failure signal while
the store is healthy. -/
theorem get_user_info_spec (db : DolfinDB) (user_id : Nat) :
    (findUser db user_id = none →
      get_user_info user_id db = UserInfoResult.noUser) ∧
    (∀ u, findUser db user_id = some u →
      get_user_info user_id db = UserInfoResult.profile
        { email := u.email, mobile := u.mobile, firstName := u.first_name,
          middleName := u.middle_name, lastName := u.last_name }) ∧
    ∀ s, get_user_info user_id db ≠ UserInfoResult.storageError s := by
  refine ⟨?_, ?_, ?_⟩
  · intro h
    unfold get_user_info
    rw [h]
  · intro u h
    unfold get_user_info
    rw [h]
  · intro s h
    unfold get_user_info at h
    cases hu : findUser db user_id <;> rw [hu] at h <;> cases h

/-- Witness for C8 at `dbU1`: the absent user 5 gets the no-user signal, the
present user 1 gets its five-field profile. -/
theorem get_user_info_spec_witness :
    get_user_info 5 dbU1 = UserInfoResult.noUser ∧
    get_user_info 1 dbU1 = UserInfoResult.profile
      { email := "a@x.com", mobile := "000", firstName := "A",
        middleName := "", lastName := "B" } :=
  ⟨(get_user_info_spec dbU1 5).1 (by decide),
   (get_user_info_spec dbU1 1).2.1 userRow1 (by decide)⟩

/-- C9 counterexample: user 1 of `dbU1` exists but its `basiq_id` is NULL —
yet `link_bank_account` does not fail: it calls the remote auth-link
capability, passing the raw NULL through as the provider account id. -/
theorem link_bank_account_unlinked_calls_remote :
    (link_bank_account 1 dbU1).1 = LinkResult.opened ∧
    (link_bank_account 1 dbU1).2.2 = [RemoteCall.createAuthLink none] := by
  exact ⟨rfl, rfl⟩

/-- C9 amended: `link_bank_account` returns the no-user signal (with no
remote call) only when the user row is absent; for an existing user —
`basiq_id` NULL included — it proceeds, calling the remote auth-link
capability with the raw stored `basiq_id`; in every case it mutates no row
of the users or transactions tables. -/
theorem link_bank_account_spec (db : DolfinDB) (user_id : Nat) :
    (link_bank_account user_id db).2.1 = db ∧
    (findUser db user_id = none →
      (link_bank_account user_id db).1 = LinkResult.noUser ∧
      (link_bank_account user_id db).2.2 = []) ∧
    ∀ u, findUser db user_id = some u →
      (link_bank_account user_id db).1 = LinkResult.opened ∧
      (link_bank_account user_id db).2.2 =
        [RemoteCall.createAuthLink u.basiq_id] := by
  refine ⟨?_, ?_, ?_⟩
  · unfold link_bank_account
    cases h : findUser db user_id <;> rfl
  · intro h
    unfold link_bank_account
    rw [h]
    exact ⟨rfl, rfl⟩
  · intro u h
    unfold link_bank_account
    rw [h]
    exact ⟨rfl, rfl⟩

/-- Witness for C9's amended theorem at `dbU1`: the absent user 5 gets the
no-user signal with no remote call; the present (unlinked) user 1 triggers
the auth-link call carrying the raw NULL. -/
theorem link_bank_account_spec_witness :
    ((link_bank_account 5 dbU1).1 = LinkResult.noUser ∧
     (link_bank_account 5 dbU1).2.2 = []) ∧
    ((link_bank_account 1 dbU1).2.2 = [RemoteCall.createAuthLink none]) :=
  ⟨(link_bank_account_spec dbU1 5).2.1 (by decide),
   ((link_bank_account_spec dbU1 1).2.2 userRow1 (by decide)).2⟩

/-- C10: `clear_transactions` empties the transactions table for all users
unconditionally and leaves the users table — every `basiq_id` included —
completely unchanged. -/
theorem clear_transactions_frame (db : DolfinDB) :
    (clear_transactions db).transactions = [] ∧
    (clear_transactions db).users = db.users ∧
    ∀ user_id, fetch_transactions_by_user user_id (clear_transactions db) = [] ∧
      get_basiq_id user_id (clear_transactions db) = get_basiq_id user_id db :=
  ⟨rfl, rfl, fun _ => ⟨rfl, rfl⟩⟩

end APIDbOp
